import Mathlib

/-!
Shallow embedding of `src/panel_mosaic/panel_mosaic.py`.

The repository is a thin wrapper around matplotlib, skunk and cairosvg.  We
embed the wrapper's own control flow faithfully and model the external library
calls abstractly:

* a matplotlib `Axes` object is a record of the drawing state the wrapper
  mutates (text objects, inset axes, tick lists, the on/off flag, skunk
  placeholder connections);
* `plt.subplot_mosaic` yields one fresh axis per distinct non-"." label of the
  mosaic specification;
* `skunk.pltsvg(fig)` and `skunk.insert(mapping)` are modelled as abstract SVG
  values recording the figure state (its axes) and, for `insert`, the
  substituted svg panel mapping;
* `plt.imread(f)` returns the file's content (the file system is an
  association list from path to content); `cairosvg.svg2pdf` is the abstract
  conversion recorded in a `FileWrite.pdfFile` event.

Python dynamic errors (KeyError, FileNotFoundError, AttributeError, TypeError)
are explicit `PyError` values.  Methods that can raise while having already
mutated `self` return the state reached at the point of the raise together
with an `Option PyError`.
-/

/-- Python runtime errors that the wrapper can propagate. -/
inductive PyError where
  | keyError (key : String)
  | fileNotFoundError (path : String)
  | attributeError (attr : String)
  | typeError (msg : String)
deriving DecidableEq, Repr

/-- Whether a Python error is a KeyError (a missing-key lookup failure). -/
def PyError.isKeyError : PyError → Bool
  | .keyError _ => true
  | _ => false

/-- A value of Python type `Union[str, Path]`: either a `str` or a
`pathlib.Path` (carrying its textual form). -/
inductive PyPathOrStr where
  | str (s : String)
  | path (p : String)
deriving DecidableEq, Repr

/-- Python `+` applied to a `Union[str, Path]` value and a `str`:
concatenation for `str`, a TypeError for `Path` (Path does not implement
`+`). -/
def pyAdd : PyPathOrStr → String → Except PyError String
  | .str s, t => .ok (s ++ t)
  | .path _, _ => .error (.typeError "unsupported operand type for +")

/-- Python `str()` applied to a `Union[str, Path]` value. -/
def pyStr : PyPathOrStr → String
  | .str s => s
  | .path p => p

/-- A matplotlib text object as created by `ax.text` in this code base. -/
structure TextObj where
  x : Rat
  y : Rat
  content : String
  horizontalalignment : String
  verticalalignment : String
  transform : String
  fontsize : Int
  clip_on : Bool
deriving DecidableEq, Repr

/-- An inset axis holding a raster image, as created by
`ax.inset_axes(...)` followed by `imshow` and `axis("off")` in
`PanelMosaic.map`. -/
structure InsetImage where
  bounds : List Rat
  zorder : Int
  image : String
  interpolation : String
  axisOn : Bool
deriving DecidableEq, Repr

/-- The drawing state of one matplotlib axis that the wrapper mutates.
`xticks`/`yticks` are `none` while matplotlib's automatic ticks are in
force and `some l` after `ax.set(xticks := l)`-style calls; `connections`
records the skunk placeholder labels attached by `skunk.connect`. -/
structure Axis where
  autoscaleOn : Bool
  texts : List TextObj
  xticks : Option (List Rat)
  yticks : Option (List Rat)
  axisOn : Bool
  insets : List InsetImage
  connections : List String
deriving DecidableEq, Repr

/-- A fresh axis as handed out by `plt.subplot_mosaic`. -/
def Axis.fresh : Axis :=
  { autoscaleOn := true, texts := [], xticks := none, yticks := none,
    axisOn := true, insets := [], connections := [] }

/-- An abstract SVG value: either the direct render of the figure
(`skunk.pltsvg`) or the render with the svg panel mapping substituted for
the connected placeholders (`skunk.insert`). -/
inductive SVGVal where
  | pltsvg (axs : List (String × Axis))
  | inserted (svgMapping : List (String × String)) (axs : List (String × Axis))
deriving DecidableEq, Repr

/-- The `gridspec_kw` dictionary actually built by `__init__`
(`dict(hspace=0.0, wspace=0.0)`). -/
structure GridspecKw where
  hspace : Rat
  wspace : Rat
deriving DecidableEq, Repr

/-- The file system visible to `open`/`plt.imread`: an association list from
path to raster content. -/
def FS : Type := List (String × String)

/-- Python `d[k]` lookup on an (insertion-ordered) dictionary represented as
an association list: the first binding of the key, if any. -/
def lookupD {α : Type} : List (String × α) → String → Option α
  | [], _ => none
  | kv :: rest, key => if kv.1 = key then some kv.2 else lookupD rest key

/-- The state of a `PanelMosaic` object.  `gridspec_kw = none` models the
attribute never having been assigned (so that reading it raises
AttributeError); `panel_mapping = none` models the attribute holding Python
`None`; `png_panel_mapping`/`svg_panel_mapping` are `none` until `map`
assigns them. -/
structure PanelMosaic where
  mosaic : List (List String)
  figsize : Rat × Rat
  layout : String
  gridspec_kw : Option GridspecKw
  axs : List (String × Axis)
  panel_mapping : Option (List (String × String))
  png_panel_mapping : Option (List (String × String))
  svg_panel_mapping : Option (List (String × String))
  svg : SVGVal
deriving DecidableEq, Repr

/-- The panel labels named by a mosaic specification: its distinct entries,
`"."` (matplotlib's empty-slot marker) excluded.  This models which axes
`plt.subplot_mosaic` creates. -/
def mosaicLabels (mosaic : List (List String)) : List String :=
  (mosaic.flatten.filter (fun l => l ≠ ".")).dedup

/-- Embeds `PanelMosaic._set_up_axes`: reads `self.gridspec_kw` (AttributeError
when the attribute was never assigned) and calls `plt.subplot_mosaic`, which
yields one fresh axis per mosaic label. -/
def setUpAxes (mosaic : List (List String)) (gridspec_kw : Option GridspecKw) :
    Except PyError (List (String × Axis)) :=
  match gridspec_kw with
  | none => .error (.attributeError "gridspec_kw")
  | some _ => .ok ((mosaicLabels mosaic).map (fun l => (l, Axis.fresh)))

/-- Embeds `PanelMosaic.__init__`: stores the configuration, assigns
`self.gridspec_kw = dict(hspace=0.0, wspace=0.0)` only when the argument is
`None`, then calls `_set_up_axes` (which fails with AttributeError when the
attribute was left unassigned), sets `panel_mapping` to `None` and renders
`self.svg = skunk.pltsvg(self.fig)`. -/
def PanelMosaic.init (mosaic : List (List String)) (figsize : Rat × Rat)
    (layout : String) (gridspec_kw : Option GridspecKw) :
    Except PyError PanelMosaic :=
  let attr : Option GridspecKw :=
    match gridspec_kw with
    | none => some { hspace := 0, wspace := 0 }
    | some _ => none
  match setUpAxes mosaic attr with
  | .error e => .error e
  | .ok axs =>
      .ok { mosaic := mosaic, figsize := figsize, layout := layout,
            gridspec_kw := attr, axs := axs, panel_mapping := none,
            png_panel_mapping := none, svg_panel_mapping := none,
            svg := SVGVal.pltsvg axs }

/-- Embeds the module-level helper `_label_axes`: for every `(label, ax)` of
the axes dictionary, turns autoscale off, draws one text object holding
`label + ""` at `label_pos` in axis coordinates with the given alignment and
fontsize, and empties both tick lists. -/
def labelAxesImpl (axs : List (String × Axis)) (fontsize : Int)
    (label_pos : Rat × Rat) (horizontalalignment verticalalignment : String) :
    List (String × Axis) :=
  axs.map (fun kv =>
    (kv.1,
      { kv.2 with
          autoscaleOn := false,
          texts := kv.2.texts ++
            [{ x := label_pos.1, y := label_pos.2, content := kv.1 ++ "",
               horizontalalignment := horizontalalignment,
               verticalalignment := verticalalignment,
               transform := "transAxes", fontsize := fontsize,
               clip_on := false }],
          xticks := some [], yticks := some [] }))

/-- Embeds `PanelMosaic.label_axes`, which delegates to `_label_axes` on
`self.axs`. -/
def PanelMosaic.label_axes (self : PanelMosaic) (fontsize : Int)
    (label_pos : Rat × Rat) (horizontalalignment verticalalignment : String) :
    PanelMosaic :=
  { self with
      axs := labelAxesImpl self.axs fontsize label_pos horizontalalignment
        verticalalignment }

/-- Embeds `PanelMosaic.format_axes`: iterates over the axes and calls
`ax.axis("off")` on each exactly when `panel_borders` is false. -/
def PanelMosaic.format_axes (self : PanelMosaic) (panel_borders : Bool) :
    PanelMosaic :=
  { self with
      axs := self.axs.map (fun kv =>
        if panel_borders then kv else (kv.1, { kv.2 with axisOn := false })) }

/-- Python `s.endswith(t)`: whether the last characters of `s` spell `t`.
(When `t` is longer than `s` the truncated drop leaves all of `s`, whose
length differs from `t`, so the comparison is false, as in Python.) -/
def strEndsWith (s t : String) : Bool :=
  s.data.drop (s.data.length - t.data.length) == t.data

/-- Python in-place mutation of the axis object bound to `label` in the axes
dictionary. -/
def updateAx (axs : List (String × Axis)) (label : String) (f : Axis → Axis) :
    List (String × Axis) :=
  axs.map (fun kv => if kv.1 = label then (kv.1, f kv.2) else kv)

/-- The inset axis built for a raster image in `PanelMosaic.map`:
`inset_axes([0.01, 0.01, 0.98, 0.98], zorder=-1)`, `imshow(img,
interpolation="none", aspect=None)`, `axis("off")`. -/
def mkInset (img : String) : InsetImage :=
  { bounds := [(1 : Rat)/100, (1 : Rat)/100, (98 : Rat)/100, (98 : Rat)/100],
    zorder := -1, image := img, interpolation := "none", axisOn := false }

/-- The png loop of `PanelMosaic.map`: for each `(label, path)` it opens the
file (FileNotFoundError when absent), looks up `self.axs[label]` (KeyError
when the label has no axis) and draws the image into a fresh inset axis of
that panel's axis.  Returns the axes state at the point of any raise. -/
def pngLoop (fsys : FS) :
    List (String × String) → List (String × Axis) →
    List (String × Axis) × Option PyError
  | [], axs => (axs, none)
  | (label, path) :: rest, axs =>
    match lookupD fsys path with
    | none => (axs, some (.fileNotFoundError path))
    | some img =>
      match lookupD axs label with
      | none => (axs, some (.keyError label))
      | some _ =>
          pngLoop fsys rest
            (updateAx axs label
              (fun a => { a with insets := a.insets ++ [mkInset img] }))

/-- The svg loop of `PanelMosaic.map`: `skunk.connect(self.axs[label], label)`
for each svg label (KeyError when the label has no axis). -/
def connectLoop :
    List String → List (String × Axis) →
    List (String × Axis) × Option PyError
  | [], axs => (axs, none)
  | label :: rest, axs =>
    match lookupD axs label with
    | none => (axs, some (.keyError label))
    | some _ =>
        connectLoop rest
          (updateAx axs label
            (fun a => { a with connections := a.connections ++ [label] }))

/-- Embeds `PanelMosaic.map`: records `panel_mapping`, filters the entries
whose path ends with ".png" into `png_panel_mapping` and embeds each as an
inset image, filters the ".svg" entries into `svg_panel_mapping`, connects a
skunk placeholder for each, and replaces `self.svg` with
`skunk.insert(svg_panel_mapping)`.  The first component of the result is the
object state reached (also at the point of a raise); the second is the raised
error, if any. -/
def PanelMosaic.map (self : PanelMosaic) (fsys : FS)
    (panel_mapping : List (String × String)) :
    PanelMosaic × Option PyError :=
  let self1 := { self with panel_mapping := some panel_mapping }
  let png := panel_mapping.filter (fun lp => strEndsWith lp.2 ".png")
  let self2 := { self1 with png_panel_mapping := some png }
  match pngLoop fsys png self2.axs with
  | (axs1, some e) => ({ self2 with axs := axs1 }, some e)
  | (axs1, none) =>
    let self3 := { self2 with axs := axs1 }
    let svgm := panel_mapping.filter (fun lp => strEndsWith lp.2 ".svg")
    let self4 := { self3 with svg_panel_mapping := some svgm }
    match connectLoop (svgm.map Prod.fst) self4.axs with
    | (axs2, some e) => ({ self4 with axs := axs2 }, some e)
    | (axs2, none) =>
        ({ self4 with axs := axs2, svg := SVGVal.inserted svgm axs2 }, none)

/-- A file written by `write`/`write_svg`/`write_pdf`: the path and, for svg,
the written SVG string, for pdf, the SVG value that `cairosvg.svg2pdf`
converted. -/
inductive FileWrite where
  | svgFile (path : String) (content : SVGVal)
  | pdfFile (path : String) (content : SVGVal)
deriving DecidableEq, Repr

/-- Embeds `PanelMosaic.write_svg`: `open(out_path + ".svg", "w")` then write
`self.svg`.  The `+` is Python string concatenation and raises TypeError on a
`Path` argument. -/
def PanelMosaic.write_svg (self : PanelMosaic) (out_path : PyPathOrStr) :
    Except PyError FileWrite :=
  match pyAdd out_path ".svg" with
  | .error e => .error e
  | .ok p => .ok (.svgFile p self.svg)

/-- Embeds `PanelMosaic.write_pdf`:
`cairosvg.svg2pdf(bytestring=self.svg, write_to=str(out_path) + ".pdf")`;
the `str(...)` conversion succeeds on both `str` and `Path`. -/
def PanelMosaic.write_pdf (self : PanelMosaic) (out_path : PyPathOrStr) :
    FileWrite :=
  .pdfFile (pyStr out_path ++ ".pdf") self.svg

/-- Embeds `PanelMosaic.write`: calls `write_svg` when `"svg"` is among the
formats, then `write_pdf` when `"pdf"` is; returns the file writes performed
in order.  No attribute of `self` is assigned, so the figure state is
unchanged by construction. -/
def PanelMosaic.write (self : PanelMosaic) (out_path : PyPathOrStr)
    (formats : List String) : Except PyError (List FileWrite) :=
  if formats.contains "svg" then
    match self.write_svg out_path with
    | .error e => .error e
    | .ok w =>
      if formats.contains "pdf" then .ok [w, self.write_pdf out_path]
      else .ok [w]
  else
    if formats.contains "pdf" then .ok [self.write_pdf out_path]
    else .ok []

/-- The runtime value returned by the free function `panel_mosaic`: despite
the `-> str` annotation, the function body ends in `return pm`, so the value
is either a string or a `PanelMosaic` object. -/
inductive PyReturn where
  | strVal (s : String)
  | pmObj (pm : PanelMosaic)
deriving DecidableEq, Repr

/-- Embeds the free function `panel_mosaic`: constructs a `PanelMosaic`
(with the default `gridspec_kw=None`), labels the axes (with the default
"left"/"top" alignment), formats the axes, maps the panels, and returns the
`pm` object itself. -/
def panel_mosaic (fsys : FS) (mosaic : List (List String))
    (panel_mapping : List (String × String)) (figsize : Rat × Rat)
    (fontsize : Int) (panel_borders : Bool) (layout : String)
    (label_pos : Rat × Rat) : Except PyError PyReturn :=
  match PanelMosaic.init mosaic figsize layout none with
  | .error e => .error e
  | .ok pm =>
    let pm := pm.label_axes fontsize label_pos "left" "top"
    let pm := pm.format_axes panel_borders
    match pm.map fsys panel_mapping with
    | (_, some e) => .error e
    | (pm2, none) => .ok (.pmObj pm2)

/-- A degenerate `PanelMosaic` used only as the default of `Option.getD`
below (the concrete constructor calls it is paired with always succeed). -/
def pmDefault : PanelMosaic :=
  { mosaic := [], figsize := (0, 0), layout := "", gridspec_kw := none,
    axs := [], panel_mapping := none, png_panel_mapping := none,
    svg_panel_mapping := none, svg := SVGVal.pltsvg [] }

/-- A concrete `PanelMosaic` built from the one-panel mosaic `[["A"]]` with
the default figure size and layout, used as the subject of concrete
evaluations. -/
def pmA : PanelMosaic :=
  (PanelMosaic.init [["A"]] (10, 8) "tight" none).toOption.getD pmDefault

/-- A concrete `PanelMosaic` built from the two-panel mosaic `[["A", "B"]]`,
used as the subject of concrete evaluations. -/
def pmAB : PanelMosaic :=
  (PanelMosaic.init [["A", "B"]] (10, 8) "tight" none).toOption.getD pmDefault

/-! ### Lemmas about dictionary lookup and in-place axis mutation -/

theorem lookupD_updateAx (axs : List (String × Axis)) (l k : String)
    (f : Axis → Axis) :
    lookupD (updateAx axs l f) k =
      if k = l then (lookupD axs k).map f else lookupD axs k := by
  induction axs with
  | nil => simp [lookupD, updateAx]
  | cons kv rest ih =>
    by_cases hkl : kv.1 = l
    · subst hkl
      by_cases hkk : kv.1 = k
      · subst hkk
        simp [updateAx, lookupD]
      · simp only [updateAx, List.map_cons] at ih ⊢
        simp [lookupD, hkk, Ne.symm hkk, ih]
    · by_cases hkk : kv.1 = k
      · subst hkk
        simp [updateAx, lookupD, hkl]
      · simp only [updateAx, List.map_cons] at ih ⊢
        simp [lookupD, hkl, hkk, ih]

theorem lookupD_map_val {g : String → Axis → Axis}
    (axs : List (String × Axis)) (k : String) :
    lookupD (axs.map (fun kv => (kv.1, g kv.1 kv.2))) k =
      (lookupD axs k).map (g k) := by
  induction axs with
  | nil => simp [lookupD]
  | cons kv rest ih =>
    by_cases hk : kv.1 = k
    · subst hk
      simp [lookupD]
    · simp [lookupD, hk, ih]

theorem lookupD_map_fresh (ls : List String) (k : String) :
    lookupD (ls.map (fun l => (l, Axis.fresh))) k =
      if k ∈ ls then some Axis.fresh else none := by
  induction ls with
  | nil => simp [lookupD]
  | cons l rest ih =>
    by_cases hk : l = k
    · subst hk
      simp [lookupD]
    · simp [lookupD, hk, Ne.symm hk, ih]

/-! ### The loops of `PanelMosaic.map` only add insets and connections -/

/-- Axis `b` extends axis `a`: every inset and every connection of `a` is
still present in `b`. -/
def AxGrows (a b : Axis) : Prop :=
  (∀ i ∈ a.insets, i ∈ b.insets) ∧ (∀ c ∈ a.connections, c ∈ b.connections)

/-- Axes dictionary `axs'` extends `axs` pointwise. -/
def AxsGrows (axs axs' : List (String × Axis)) : Prop :=
  ∀ k a, lookupD axs k = some a → ∃ b, lookupD axs' k = some b ∧ AxGrows a b

theorem axGrows_refl (a : Axis) : AxGrows a a :=
  ⟨fun _ h => h, fun _ h => h⟩

theorem axGrows_trans {a b c : Axis} (h1 : AxGrows a b) (h2 : AxGrows b c) :
    AxGrows a c :=
  ⟨fun i hi => h2.1 i (h1.1 i hi), fun x hx => h2.2 x (h1.2 x hx)⟩

theorem axsGrows_refl (axs : List (String × Axis)) : AxsGrows axs axs :=
  fun _ a h => ⟨a, h, axGrows_refl a⟩

theorem axsGrows_trans {axs1 axs2 axs3 : List (String × Axis)}
    (h1 : AxsGrows axs1 axs2) (h2 : AxsGrows axs2 axs3) :
    AxsGrows axs1 axs3 := by
  intro k a ha
  obtain ⟨b, hb, hab⟩ := h1 k a ha
  obtain ⟨c, hc, hbc⟩ := h2 k b hb
  exact ⟨c, hc, axGrows_trans hab hbc⟩

theorem axsGrows_updateAx (axs : List (String × Axis)) (l : String)
    (f : Axis → Axis) (hf : ∀ a, AxGrows a (f a)) :
    AxsGrows axs (updateAx axs l f) := by
  intro k a ha
  rw [lookupD_updateAx]
  by_cases hk : k = l
  · subst hk
    exact ⟨f a, by simp [ha], hf a⟩
  · exact ⟨a, by simp [hk, ha], axGrows_refl a⟩

theorem axsGrows_isSome {axs axs' : List (String × Axis)}
    (h : AxsGrows axs axs') (k : String)
    (hk : (lookupD axs k).isSome = true) :
    (lookupD axs' k).isSome = true := by
  obtain ⟨a, ha⟩ := Option.isSome_iff_exists.mp hk
  obtain ⟨b, hb, _⟩ := h k a ha
  simp [hb]

theorem pngLoop_grows (fsys : FS) (entries : List (String × String))
    (axs : List (String × Axis)) :
    AxsGrows axs (pngLoop fsys entries axs).1 := by
  induction entries generalizing axs with
  | nil => exact axsGrows_refl axs
  | cons lp rest ih =>
    obtain ⟨l, p⟩ := lp
    simp only [pngLoop]
    cases hfs : lookupD fsys p with
    | none => exact axsGrows_refl axs
    | some img =>
      cases hax : lookupD axs l with
      | none => exact axsGrows_refl axs
      | some a =>
        refine axsGrows_trans (axsGrows_updateAx axs l _ ?_) (ih _)
        intro a
        exact ⟨fun i hi => List.mem_append_left _ hi, fun c hc => hc⟩

theorem connectLoop_grows (labels : List String)
    (axs : List (String × Axis)) :
    AxsGrows axs (connectLoop labels axs).1 := by
  induction labels generalizing axs with
  | nil => exact axsGrows_refl axs
  | cons l rest ih =>
    simp only [connectLoop]
    cases hax : lookupD axs l with
    | none => exact axsGrows_refl axs
    | some a =>
      refine axsGrows_trans (axsGrows_updateAx axs l _ ?_) (ih _)
      intro a
      exact ⟨fun i hi => hi, fun c hc => List.mem_append_left _ hc⟩

theorem pngLoop_ok (fsys : FS) (entries : List (String × String))
    (axs : List (String × Axis))
    (hl : ∀ lp ∈ entries, (lookupD axs lp.1).isSome = true)
    (hf : ∀ lp ∈ entries, (lookupD fsys lp.2).isSome = true) :
    (pngLoop fsys entries axs).2 = none ∧
    ∀ lp ∈ entries, ∃ img b, lookupD fsys lp.2 = some img ∧
      lookupD (pngLoop fsys entries axs).1 lp.1 = some b ∧
      mkInset img ∈ b.insets := by
  induction entries generalizing axs with
  | nil => exact ⟨rfl, by simp⟩
  | cons lp rest ih =>
    obtain ⟨l, p⟩ := lp
    obtain ⟨img, himg⟩ := Option.isSome_iff_exists.mp
      (hf (l, p) (List.mem_cons_self _ _))
    obtain ⟨a, ha⟩ := Option.isSome_iff_exists.mp
      (hl (l, p) (List.mem_cons_self _ _))
    have hred : pngLoop fsys ((l, p) :: rest) axs =
        pngLoop fsys rest
          (updateAx axs l (fun a => { a with insets := a.insets ++ [mkInset img] })) := by
      simp [pngLoop, himg, ha]
    set axs1 :=
      updateAx axs l (fun a => { a with insets := a.insets ++ [mkInset img] })
      with haxs1
    have hl1 : ∀ lp ∈ rest, (lookupD axs1 lp.1).isSome = true := by
      intro lp hmem
      rw [haxs1, lookupD_updateAx]
      by_cases hk : lp.1 = l
      · rw [if_pos hk, Option.isSome_map']
        exact hl lp (List.mem_cons_of_mem _ hmem)
      · rw [if_neg hk]
        exact hl lp (List.mem_cons_of_mem _ hmem)
    have hrest := ih axs1 hl1 (fun lp hmem => hf lp (List.mem_cons_of_mem _ hmem))
    refine ⟨by rw [hred]; exact hrest.1, ?_⟩
    intro lp hmem
    rcases List.mem_cons.mp hmem with hhead | htail
    · subst hhead
      refine ⟨img, ?_⟩
      have hax1 : lookupD axs1 l =
          some { a with insets := a.insets ++ [mkInset img] } := by
        rw [haxs1, lookupD_updateAx]
        simp [ha]
      obtain ⟨b, hb, hgrow⟩ :=
        pngLoop_grows fsys rest axs1 l _ hax1
      refine ⟨b, himg, by rw [hred]; exact hb, ?_⟩
      exact hgrow.1 (mkInset img) (by simp)
    · obtain ⟨img', b, h1, h2, h3⟩ := hrest.2 lp htail
      exact ⟨img', b, h1, by rw [hred]; exact h2, h3⟩

theorem connectLoop_ok (labels : List String) (axs : List (String × Axis))
    (hl : ∀ l ∈ labels, (lookupD axs l).isSome = true) :
    (connectLoop labels axs).2 = none ∧
    ∀ l ∈ labels, ∃ b, lookupD (connectLoop labels axs).1 l = some b ∧
      l ∈ b.connections := by
  induction labels generalizing axs with
  | nil => exact ⟨rfl, by simp⟩
  | cons l rest ih =>
    obtain ⟨a, ha⟩ := Option.isSome_iff_exists.mp
      (hl l (List.mem_cons_self _ _))
    have hred : connectLoop (l :: rest) axs =
        connectLoop rest
          (updateAx axs l (fun a => { a with connections := a.connections ++ [l] })) := by
      simp [connectLoop, ha]
    set axs1 :=
      updateAx axs l (fun a => { a with connections := a.connections ++ [l] })
      with haxs1
    have hl1 : ∀ x ∈ rest, (lookupD axs1 x).isSome = true := by
      intro x hmem
      rw [haxs1, lookupD_updateAx]
      by_cases hk : x = l
      · rw [if_pos hk, Option.isSome_map']
        exact hl x (List.mem_cons_of_mem _ hmem)
      · rw [if_neg hk]
        exact hl x (List.mem_cons_of_mem _ hmem)
    have hrest := ih axs1 hl1
    refine ⟨by rw [hred]; exact hrest.1, ?_⟩
    intro x hmem
    rcases List.mem_cons.mp hmem with hhead | htail
    · subst hhead
      have hax1 : lookupD axs1 x =
          some { a with connections := a.connections ++ [x] } := by
        rw [haxs1, lookupD_updateAx]
        simp [ha]
      obtain ⟨b, hb, hgrow⟩ := connectLoop_grows rest axs1 x _ hax1
      refine ⟨b, by rw [hred]; exact hb, ?_⟩
      exact hgrow.2 x (by simp)
    · obtain ⟨b, h2, h3⟩ := hrest.2 x htail
      exact ⟨b, by rw [hred]; exact h2, h3⟩

theorem pngLoop_noKey (fsys : FS) (entries : List (String × String))
    (axs : List (String × Axis))
    (hl : ∀ lp ∈ entries, (lookupD axs lp.1).isSome = true) :
    ∀ e, (pngLoop fsys entries axs).2 = some e → e.isKeyError = false := by
  induction entries generalizing axs with
  | nil => simp [pngLoop]
  | cons lp rest ih =>
    obtain ⟨l, p⟩ := lp
    obtain ⟨a, ha⟩ := Option.isSome_iff_exists.mp
      (hl (l, p) (List.mem_cons_self _ _))
    intro e he
    cases hfs : lookupD fsys p with
    | none =>
      rw [pngLoop, hfs] at he
      cases he
      rfl
    | some img =>
      rw [pngLoop, hfs, ha] at he
      refine ih _ ?_ e he
      intro lp hmem
      rw [lookupD_updateAx]
      by_cases hk : lp.1 = l
      · rw [if_pos hk, Option.isSome_map']
        exact hl lp (List.mem_cons_of_mem _ hmem)
      · rw [if_neg hk]
        exact hl lp (List.mem_cons_of_mem _ hmem)

/-- When both loops of `map` raise nothing, `map` records the three mappings,
ends with the loops' final axes and replaces `self.svg` with the result of
`skunk.insert` on the svg panel mapping. -/
theorem map_ok_eq (self : PanelMosaic) (fsys : FS)
    (mapping : List (String × String))
    (h1 : (pngLoop fsys (mapping.filter (fun lp => strEndsWith lp.2 ".png")) self.axs).2 = none)
    (h2 : (connectLoop ((mapping.filter (fun lp => strEndsWith lp.2 ".svg")).map Prod.fst)
            (pngLoop fsys (mapping.filter (fun lp => strEndsWith lp.2 ".png")) self.axs).1).2 = none) :
    self.map fsys mapping =
      ({ self with
          panel_mapping := some mapping,
          png_panel_mapping := some (mapping.filter (fun lp => strEndsWith lp.2 ".png")),
          svg_panel_mapping := some (mapping.filter (fun lp => strEndsWith lp.2 ".svg")),
          axs := (connectLoop ((mapping.filter (fun lp => strEndsWith lp.2 ".svg")).map Prod.fst)
                    (pngLoop fsys (mapping.filter (fun lp => strEndsWith lp.2 ".png")) self.axs).1).1,
          svg := SVGVal.inserted (mapping.filter (fun lp => strEndsWith lp.2 ".svg"))
                   (connectLoop ((mapping.filter (fun lp => strEndsWith lp.2 ".svg")).map Prod.fst)
                      (pngLoop fsys (mapping.filter (fun lp => strEndsWith lp.2 ".png")) self.axs).1).1 },
       none) := by
  simp only [PanelMosaic.map]
  rcases hp : pngLoop fsys (mapping.filter (fun lp => strEndsWith lp.2 ".png")) self.axs with ⟨axs1, e1⟩
  rw [hp] at h1 h2
  cases e1 with
  | some e => simp at h1
  | none =>
    rcases hc : connectLoop ((mapping.filter (fun lp => strEndsWith lp.2 ".svg")).map Prod.fst) axs1 with ⟨axs2, e2⟩
    rw [hc] at h2
    cases e2 with
    | some e => simp at h2
    | none => simp [hc]

/-- When every mapped label has an axis, any error raised by `map` is not a
KeyError: the only other raise sites are the file opens. -/
theorem map_noKey (self : PanelMosaic) (fsys : FS)
    (mapping : List (String × String))
    (hlab : ∀ lp ∈ mapping, (lookupD self.axs lp.1).isSome = true) :
    ∀ e, (self.map fsys mapping).2 = some e → e.isKeyError = false := by
  intro e he
  have hl' : ∀ lp ∈ mapping.filter (fun lp => strEndsWith lp.2 ".png"),
      (lookupD self.axs lp.1).isSome = true := by
    intro lp hmem
    exact hlab lp (List.mem_filter.mp hmem).1
  have hcl : ∀ l ∈ (mapping.filter (fun lp => strEndsWith lp.2 ".svg")).map Prod.fst,
      (lookupD (pngLoop fsys (mapping.filter (fun lp => strEndsWith lp.2 ".png")) self.axs).1 l).isSome = true := by
    intro l hmem
    obtain ⟨lp, hlp, rfl⟩ := List.mem_map.mp hmem
    exact axsGrows_isSome (pngLoop_grows fsys _ self.axs) lp.1
      (hlab lp (List.mem_filter.mp hlp).1)
  have hnk := pngLoop_noKey fsys (mapping.filter (fun lp => strEndsWith lp.2 ".png")) self.axs hl'
  obtain ⟨hcerr, _⟩ := connectLoop_ok _ _ hcl
  simp only [PanelMosaic.map] at he
  rcases hp : pngLoop fsys (mapping.filter (fun lp => strEndsWith lp.2 ".png")) self.axs with ⟨axs1, e1⟩
  rw [hp] at he hnk hcerr
  cases e1 with
  | some e1' =>
    simp at he
    exact he ▸ hnk e1' rfl
  | none =>
    dsimp only at he hcerr
    rcases hc : connectLoop ((mapping.filter (fun lp => strEndsWith lp.2 ".svg")).map Prod.fst) axs1 with ⟨axs2, e2⟩
    rw [hc] at he hcerr
    cases e2 with
    | some e2' => simp at hcerr
    | none => simp at he


/-- Lookup after `_label_axes`: every axis of the dictionary acquires exactly
one new text object, whose content is its own label followed by the empty
string. -/
theorem lookupD_labelAxesImpl (axs : List (String × Axis)) (fontsize : Int)
    (label_pos : Rat × Rat) (ha va : String) (k : String) :
    lookupD (labelAxesImpl axs fontsize label_pos ha va) k =
      (lookupD axs k).map (fun a =>
        { a with
            autoscaleOn := false,
            texts := a.texts ++
              [{ x := label_pos.1, y := label_pos.2, content := k ++ "",
                 horizontalalignment := ha, verticalalignment := va,
                 transform := "transAxes", fontsize := fontsize,
                 clip_on := false }],
            xticks := some [], yticks := some [] }) := by
  induction axs with
  | nil => simp [labelAxesImpl, lookupD]
  | cons kv rest ih =>
    by_cases hk : kv.1 = k
    · subst hk
      simp [labelAxesImpl, lookupD]
    · simp only [labelAxesImpl, List.map_cons] at ih ⊢
      simp [lookupD, hk] at ih ⊢
      exact ih

/-! ### Claim theorems -/

/-- C1: the free function `panel_mosaic` is annotated `-> str` and the spec
says it yields an SVG string, but on a concrete call (mosaic `[["A"]]`, empty
panel mapping, the documented defaults) it returns the `PanelMosaic` object
itself (`return pm`), never a string. -/
theorem panel_mosaic_returns_object :
    (∃ pm, panel_mosaic [] [["A"]] [] (10, 8) 30 false "tight" (0, 1) =
      Except.ok (PyReturn.pmObj pm)) ∧
    (∀ s, panel_mosaic [] [["A"]] [] (10, 8) 30 false "tight" (0, 1) ≠
      Except.ok (PyReturn.strVal s)) := by
  obtain ⟨pm, hpm⟩ : ∃ pm,
      panel_mosaic [] [["A"]] [] (10, 8) 30 false "tight" (0, 1) =
        Except.ok (PyReturn.pmObj pm) := ⟨_, rfl⟩
  refine ⟨⟨pm, hpm⟩, ?_⟩
  intro s h
  rw [hpm] at h
  simp at h

/-- C2: when every mapped label has an axis and every ".png" path is a
readable file, `map` raises nothing, records the mapping, draws each ".png"
entry's image into an inset of that panel's axis, connects each ".svg" entry
as a placeholder on that panel's axis, and replaces `self.svg` with the
result of substituting the svg panel mapping into the figure's SVG. -/
theorem map_classifies_png_svg (self : PanelMosaic) (fsys : FS)
    (mapping : List (String × String))
    (hlab : ∀ lp ∈ mapping, (lookupD self.axs lp.1).isSome = true)
    (hpng : ∀ lp ∈ mapping, strEndsWith lp.2 ".png" = true →
      (lookupD fsys lp.2).isSome = true) :
    (self.map fsys mapping).2 = none ∧
    (self.map fsys mapping).1.panel_mapping = some mapping ∧
    (∀ lp ∈ mapping, strEndsWith lp.2 ".png" = true →
      ∃ img ax, lookupD fsys lp.2 = some img ∧
        lookupD (self.map fsys mapping).1.axs lp.1 = some ax ∧
        mkInset img ∈ ax.insets) ∧
    (∀ lp ∈ mapping, strEndsWith lp.2 ".svg" = true →
      ∃ ax, lookupD (self.map fsys mapping).1.axs lp.1 = some ax ∧
        lp.1 ∈ ax.connections) ∧
    (self.map fsys mapping).1.svg =
      SVGVal.inserted (mapping.filter (fun lp => strEndsWith lp.2 ".svg"))
        (self.map fsys mapping).1.axs := by
  have hl' : ∀ lp ∈ mapping.filter (fun lp => strEndsWith lp.2 ".png"),
      (lookupD self.axs lp.1).isSome = true := by
    intro lp hmem
    exact hlab lp (List.mem_filter.mp hmem).1
  have hf' : ∀ lp ∈ mapping.filter (fun lp => strEndsWith lp.2 ".png"),
      (lookupD fsys lp.2).isSome = true := by
    intro lp hmem
    exact hpng lp (List.mem_filter.mp hmem).1 (List.mem_filter.mp hmem).2
  obtain ⟨hperr, hpmem⟩ := pngLoop_ok fsys _ self.axs hl' hf'
  have hcl : ∀ l ∈ (mapping.filter (fun lp => strEndsWith lp.2 ".svg")).map Prod.fst,
      (lookupD (pngLoop fsys (mapping.filter (fun lp => strEndsWith lp.2 ".png")) self.axs).1 l).isSome = true := by
    intro l hmem
    obtain ⟨lp, hlp, rfl⟩ := List.mem_map.mp hmem
    exact axsGrows_isSome (pngLoop_grows fsys _ self.axs) lp.1
      (hlab lp (List.mem_filter.mp hlp).1)
  obtain ⟨hcerr, hcmem⟩ := connectLoop_ok _ _ hcl
  have heq := map_ok_eq self fsys mapping hperr hcerr
  rw [heq]
  refine ⟨rfl, rfl, ?_, ?_, rfl⟩
  · intro lp hmem hsuf
    have hmemf : lp ∈ mapping.filter (fun lp => strEndsWith lp.2 ".png") :=
      List.mem_filter.mpr ⟨hmem, hsuf⟩
    obtain ⟨img, b, himg, hb, hins⟩ := hpmem lp hmemf
    obtain ⟨c, hc, hgrow⟩ := connectLoop_grows
      ((mapping.filter (fun lp => strEndsWith lp.2 ".svg")).map Prod.fst) _ lp.1 b hb
    exact ⟨img, c, himg, hc, hgrow.1 _ hins⟩
  · intro lp hmem hsuf
    have hmemf : lp.1 ∈ (mapping.filter (fun lp => strEndsWith lp.2 ".svg")).map Prod.fst :=
      List.mem_map.mpr ⟨lp, List.mem_filter.mpr ⟨hmem, hsuf⟩, rfl⟩
    obtain ⟨b, hb, hconn⟩ := hcmem lp.1 hmemf
    exact ⟨b, hb, hconn⟩

/-- C3: for a `PanelMosaic` built by `__init__` from a mosaic, if every label
of the image mapping occurs among the mosaic's labels then no error raised by
`map` is a KeyError (the missing-key branch is unreachable); and on the
concrete mosaic `[["A"]]`, mapping the absent label "B" fails with
`KeyError("B")`. -/
theorem map_keyerror_characterization (mosaic : List (List String))
    (figsize : Rat × Rat) (layout : String) (pm : PanelMosaic) (fsys : FS)
    (mapping : List (String × String))
    (hinit : PanelMosaic.init mosaic figsize layout none = .ok pm)
    (hlab : ∀ lp ∈ mapping, lp.1 ∈ mosaicLabels mosaic) :
    (∀ e, (pm.map fsys mapping).2 = some e → e.isKeyError = false) ∧
    (pmA.map [] [("B", "b.svg")]).2 = some (PyError.keyError "B") := by
  have hrec := hinit
  simp [PanelMosaic.init, setUpAxes] at hrec
  have haxs : pm.axs = (mosaicLabels mosaic).map (fun l => (l, Axis.fresh)) := by
    rw [← hrec]
  refine ⟨map_noKey pm fsys mapping ?_, by decide⟩
  intro lp hmem
  rw [haxs, lookupD_map_fresh]
  simp [hlab lp hmem]

/-- C4: for every string path prefix and formats tuple, `write` emits the SVG
file at `out_path + ".svg"` exactly when `"svg"` is among the formats and the
PDF file (converted from `self.svg`) at `out_path + ".pdf"` exactly when
`"pdf"` is, the SVG write preceding the PDF write; no attribute of `self` is
assigned, so the figure state is unchanged.  (The behavior on a `Path`-typed
`out_path` is settled separately in the C10 theorem.) -/
theorem write_format_selection (self : PanelMosaic) (s : String)
    (formats : List String) :
    self.write (.str s) formats =
      .ok ((if formats.contains "svg" then
              [FileWrite.svgFile (s ++ ".svg") self.svg] else []) ++
           (if formats.contains "pdf" then
              [FileWrite.pdfFile (s ++ ".pdf") self.svg] else [])) := by
  by_cases h1 : "svg" ∈ formats <;> by_cases h2 : "pdf" ∈ formats <;>
    simp [PanelMosaic.write, PanelMosaic.write_svg, PanelMosaic.write_pdf,
      pyAdd, pyStr, h1, h2]

/-- C5: `label_axes` draws onto each panel's axis exactly one new text
object, whose content is that panel's label, placed at `label_pos` in axis
coordinates (`transform = "transAxes"`), with the given alignment and
fontsize; this holds for every axis of the mosaic. -/
theorem label_axes_one_text (self : PanelMosaic) (fontsize : Int)
    (label_pos : Rat × Rat) (ha va : String) (label : String) (ax : Axis)
    (h : lookupD self.axs label = some ax) :
    lookupD (self.label_axes fontsize label_pos ha va).axs label =
      some { ax with
               autoscaleOn := false,
               texts := ax.texts ++
                 [{ x := label_pos.1, y := label_pos.2, content := label,
                    horizontalalignment := ha, verticalalignment := va,
                    transform := "transAxes", fontsize := fontsize,
                    clip_on := false }],
               xticks := some [], yticks := some [] } := by
  show lookupD (labelAxesImpl self.axs fontsize label_pos ha va) label = _
  rw [lookupD_labelAxesImpl, h]
  simp [String.append_empty]

/-- C6: `format_axes` with panel borders disabled turns the axis off for
every panel, and with them enabled performs no modification at all. -/
theorem format_axes_borders (self : PanelMosaic) :
    self.format_axes false =
      { self with
          axs := self.axs.map (fun kv => (kv.1, { kv.2 with axisOn := false })) } ∧
    self.format_axes true = self := by
  constructor
  · rfl
  · show { self with axs := self.axs.map (fun kv => kv) } = self
    simp

/-- C7: mapping a ".png" path that names no existing file makes `map`
propagate the underlying file-open error unchanged, and at the point of
failure `self.panel_mapping` has already been assigned the new mapping. -/
theorem map_missing_file_error :
    (pmA.map [] [("A", "missing.png")]).2 =
      some (PyError.fileNotFoundError "missing.png") ∧
    (pmA.map [] [("A", "missing.png")]).1.panel_mapping =
      some [("A", "missing.png")] := by
  constructor <;> decide

/-- C8: a panel-mapping entry whose path ends with neither ".png" nor ".svg"
is silently ignored: with a mapping of such entries, `map` records them in
`panel_mapping`, puts them in neither `png_panel_mapping` nor
`svg_panel_mapping`, embeds no image (the axes are untouched), and raises no
error (`self.svg` is still replaced by `skunk.insert` on the empty svg
mapping). -/
theorem map_ignores_unknown_suffix (self : PanelMosaic) (fsys : FS)
    (mapping : List (String × String))
    (h : ∀ lp ∈ mapping, strEndsWith lp.2 ".png" = false ∧
      strEndsWith lp.2 ".svg" = false) :
    self.map fsys mapping =
      ({ self with
          panel_mapping := some mapping,
          png_panel_mapping := some [],
          svg_panel_mapping := some [],
          svg := SVGVal.inserted [] self.axs }, none) := by
  have h1 : mapping.filter (fun lp => strEndsWith lp.2 ".png") = [] :=
    List.filter_eq_nil_iff.mpr (fun lp hmem => by simp [(h lp hmem).1])
  have h2 : mapping.filter (fun lp => strEndsWith lp.2 ".svg") = [] :=
    List.filter_eq_nil_iff.mpr (fun lp hmem => by simp [(h lp hmem).2])
  simp [PanelMosaic.map, h1, h2, pngLoop, connectLoop]

/-- C9: `__init__` succeeds only on a `None` gridspec argument: for every
non-`None` argument the attribute `self.gridspec_kw` is never assigned, so
`_set_up_axes` fails with an AttributeError independent of the supplied
value, while the `None` default succeeds. -/
theorem init_gridspec_behavior (mosaic : List (List String))
    (figsize : Rat × Rat) (layout : String) (g : GridspecKw) :
    PanelMosaic.init mosaic figsize layout (some g) =
      .error (PyError.attributeError "gridspec_kw") ∧
    ∃ pm, PanelMosaic.init mosaic figsize layout none = .ok pm :=
  ⟨rfl, ⟨_, rfl⟩⟩

/-- C10: although both are annotated `Union[str, Path]`, `write_svg` fails
with a TypeError on every `Path` argument (it concatenates `out_path +
".svg"` without converting), succeeds on every `str`, while `write_pdf`
succeeds on the same `Path` input via `str(out_path) + ".pdf"`. -/
theorem write_svg_path_vs_str (self : PanelMosaic) (p s : String) :
    self.write_svg (PyPathOrStr.path p) =
      .error (PyError.typeError "unsupported operand type for +") ∧
    self.write_svg (PyPathOrStr.str s) =
      .ok (FileWrite.svgFile (s ++ ".svg") self.svg) ∧
    self.write_pdf (PyPathOrStr.path p) =
      FileWrite.pdfFile (p ++ ".pdf") self.svg :=
  ⟨rfl, rfl, rfl⟩

/-- Witness for the C2 theorem at a concrete two-panel mosaic, one readable
png entry and one svg entry. -/
theorem map_classifies_png_svg_witness :
    (pmAB.map [("a.png", "imgA")] [("A", "a.png"), ("B", "b.svg")]).2 = none ∧
    (pmAB.map [("a.png", "imgA")] [("A", "a.png"), ("B", "b.svg")]).1.panel_mapping =
      some [("A", "a.png"), ("B", "b.svg")] ∧
    (∀ lp ∈ [("A", "a.png"), ("B", "b.svg")], strEndsWith lp.2 ".png" = true →
      ∃ img ax, lookupD [("a.png", "imgA")] lp.2 = some img ∧
        lookupD (pmAB.map [("a.png", "imgA")] [("A", "a.png"), ("B", "b.svg")]).1.axs lp.1 =
          some ax ∧
        mkInset img ∈ ax.insets) ∧
    (∀ lp ∈ [("A", "a.png"), ("B", "b.svg")], strEndsWith lp.2 ".svg" = true →
      ∃ ax,
        lookupD (pmAB.map [("a.png", "imgA")] [("A", "a.png"), ("B", "b.svg")]).1.axs lp.1 =
          some ax ∧
        lp.1 ∈ ax.connections) ∧
    (pmAB.map [("a.png", "imgA")] [("A", "a.png"), ("B", "b.svg")]).1.svg =
      SVGVal.inserted
        ([("A", "a.png"), ("B", "b.svg")].filter (fun lp => strEndsWith lp.2 ".svg"))
        (pmAB.map [("a.png", "imgA")] [("A", "a.png"), ("B", "b.svg")]).1.axs :=
  map_classifies_png_svg pmAB [("a.png", "imgA")] [("A", "a.png"), ("B", "b.svg")]
    (by decide) (by decide)

/-- Witness for the C3 theorem at the concrete one-panel mosaic `[["A"]]`. -/
theorem map_keyerror_characterization_witness :
    (∀ e, (pmA.map [] [("A", "a.svg")]).2 = some e → e.isKeyError = false) ∧
    (pmA.map [] [("B", "b.svg")]).2 = some (PyError.keyError "B") :=
  map_keyerror_characterization [["A"]] (10, 8) "tight" pmA [] [("A", "a.svg")]
    rfl (by decide)

/-- Witness for the C5 theorem on the fresh axis of the one-panel mosaic. -/
theorem label_axes_one_text_witness :
    lookupD (pmA.label_axes 30 (0, 1) "left" "top").axs "A" =
      some { Axis.fresh with
               autoscaleOn := false,
               texts := [{ x := 0, y := 1, content := "A",
                           horizontalalignment := "left",
                           verticalalignment := "top",
                           transform := "transAxes", fontsize := 30,
                           clip_on := false }],
               xticks := some [], yticks := some [] } :=
  label_axes_one_text pmA 30 (0, 1) "left" "top" "A" Axis.fresh (by decide)

/-- Witness for the C8 theorem on a ".jpg" entry. -/
theorem map_ignores_unknown_suffix_witness :
    pmA.map [] [("A", "a.jpg")] =
      ({ pmA with
          panel_mapping := some [("A", "a.jpg")],
          png_panel_mapping := some [],
          svg_panel_mapping := some [],
          svg := SVGVal.inserted [] pmA.axs }, none) :=
  map_ignores_unknown_suffix pmA [] [("A", "a.jpg")] (by decide)
